import Mathlib

/-!
# Verification of the FFXIV backend token-bucket rate limiter

Shallow embedding of `src/ffxiv-backend/src/utils/rate-limiter.ts` and the
rate-limit gate of `src/ffxiv-backend/src/clients/ff14-api-client.ts`.

Conventions of the embedding:
* JavaScript `number` values (token counts, timestamps, config fields) are
  modelled as rationals `ℚ`; the arithmetic the limiter performs (addition,
  subtraction, multiplication, `Math.floor`, `%`, `Math.min`, comparisons)
  agrees with IEEE doubles on the magnitudes involved.
* The two places where the source can produce IEEE `Infinity` (division
  `refillInterval / refillRate` with `refillRate == 0` in `calculateResetTime`
  and in the `retryAfter` computation) are modelled by the explicit extended
  type `ENum` with an `inf` constructor.
* Each public operation takes the current clock reading `now : ℚ` as an
  explicit argument; a single reading is used per call (the source calls
  `Date.now()` once at the top of each operation and, in
  `calculateResetTime`, a second time that we identify with the first).
* The mutable `Map<string, TokenBucket>` is modelled as an association list
  `BucketMap`; operations return the updated map alongside their result.
-/

namespace RateLimiterSpec

/-- Embedding of `RateLimitConfig` (`rate-limiter.ts` lines 12-27): the raw,
user-supplied configuration with the two optional fields. -/
structure RateLimitConfig where
  maxTokens : ℚ
  refillRate : ℚ
  refillInterval : ℚ
  cleanupInterval : Option ℚ := none
  bucketTTL : Option ℚ := none
  deriving DecidableEq, Repr

/-- Extended number: a rational or the IEEE value `Infinity` that JavaScript
produces on division of a positive number by zero. -/
inductive ENum where
  | fin : ℚ → ENum
  | inf : ENum
  deriving DecidableEq, Repr

/-- Embedding of `Required<RateLimitConfig>` (`this.config`, lines 62-68):
the configuration after the constructor fills in the defaults
`cleanupInterval = 300000` and `bucketTTL = 600000`. -/
structure ResolvedConfig where
  maxTokens : ℚ
  refillRate : ℚ
  refillInterval : ℚ
  cleanupInterval : ℚ
  bucketTTL : ℚ
  deriving DecidableEq, Repr

/-- Constructor lines 62-68: apply the `??` defaults. -/
def resolveConfig (c : RateLimitConfig) : ResolvedConfig :=
  { maxTokens := c.maxTokens
    refillRate := c.refillRate
    refillInterval := c.refillInterval
    cleanupInterval := c.cleanupInterval.getD (5 * 60 * 1000)
    bucketTTL := c.bucketTTL.getD (10 * 60 * 1000) }

/-- Embedding of the `TokenBucket` record (lines 43-52). -/
structure TokenBucket where
  tokens : ℚ
  lastRefill : ℚ
  lastAccessed : ℚ
  deriving DecidableEq, Repr

/-- Embedding of `RateLimitResult` (lines 29-41).  `retryAfter` is optional in
the source (present only on denial) and can be `Infinity`, hence
`Option ENum`; `resetTime` can be `Infinity` as well, hence `ENum`. -/
structure RateLimitResult where
  allowed : Bool
  tokensRemaining : ℚ
  resetTime : ENum
  retryAfter : Option ENum
  deriving DecidableEq, Repr

/-- The bucket store `Map<string, TokenBucket>` as an association list. -/
abbrev BucketMap := List (String × TokenBucket)

/-- Map lookup (`this.buckets.get(key)`). -/
def findBucket (m : BucketMap) (key : String) : Option TokenBucket :=
  match m with
  | [] => none
  | (k, b) :: rest => if k = key then some b else findBucket rest key

/-- Map deletion (`this.buckets.delete(key)`). -/
def eraseBucket (m : BucketMap) (key : String) : BucketMap :=
  m.filter (fun p => p.1 ≠ key)

/-- Map insertion/overwrite (`this.buckets.set(key, bucket)`; in the source a
bucket is mutated in place, which we model by writing the new value back). -/
def setBucket (m : BucketMap) (key : String) (b : TokenBucket) : BucketMap :=
  (key, b) :: eraseBucket m key

/-- Embedding of `validateConfig` (lines 184-204): returns the message of the first
`throw new Error(...)` whose guard fires, in source order. -/
def validateConfig (c : RateLimitConfig) : Except String Unit :=
  if c.maxTokens ≤ 0 then
    .error "maxTokens must be greater than 0"
  else if c.refillRate < 0 then
    .error "refillRate must be non-negative"
  else if c.refillInterval ≤ 0 then
    .error "refillInterval must be greater than 0"
  else if c.cleanupInterval.isSome ∧ c.cleanupInterval.getD 1 ≤ 0 then
    .error "cleanupInterval must be greater than 0"
  else if c.bucketTTL.isSome ∧ c.bucketTTL.getD 1 ≤ 0 then
    .error "bucketTTL must be greater than 0"
  else
    .ok ()

/-- JavaScript truncating division result: `Math.trunc (a / b)`, the integer
that `a % b` is defined from.  For the nonnegative operands the limiter feeds
it, this coincides with the floor. -/
def jsTrunc (q : ℚ) : ℤ :=
  if 0 ≤ q then ⌊q⌋ else ⌈q⌉

/-- JavaScript remainder `a % b` (sign of the dividend, truncating). -/
def jsMod (a b : ℚ) : ℚ :=
  a - b * jsTrunc (a / b)

/-- Embedding of `refillBucket` (lines 222-241).  Structure mirrors the source:
zero-rate early return, clock-backward reset, then the floored-interval
refill with the `Math.min` cap and the remainder-preserving `lastRefill`
update `now - (timeSinceLastRefill % refillInterval)`. -/
def refillBucket (cfg : ResolvedConfig) (b : TokenBucket) (now : ℚ) : TokenBucket :=
  if cfg.refillRate = 0 then
    b
  else if now < b.lastRefill then
    { b with lastRefill := now }
  else if 0 < ⌊(now - b.lastRefill) / cfg.refillInterval⌋ then
    { b with
      tokens := min cfg.maxTokens
        (b.tokens + (⌊(now - b.lastRefill) / cfg.refillInterval⌋ : ℚ) * cfg.refillRate)
      lastRefill := now - jsMod (now - b.lastRefill) cfg.refillInterval }
  else
    b

/-- Embedding of `calculateResetTime` (lines 243-253).  When `tokens < maxTokens` and
`refillRate == 0`, the source computes
`Date.now() + (maxTokens - tokens) * (refillInterval / refillRate)`, which
under IEEE arithmetic (with `refillInterval > 0` and `tokensNeeded > 0` in
this branch) evaluates to `Infinity`; the embedding makes that case the
explicit value `ENum.inf`. -/
def calculateResetTime (cfg : ResolvedConfig) (b : TokenBucket) (now : ℚ) : ENum :=
  if cfg.maxTokens ≤ b.tokens then
    .fin now
  else if cfg.refillRate = 0 then
    .inf
  else
    .fin (now + (cfg.maxTokens - b.tokens) * (cfg.refillInterval / cfg.refillRate))

/-- Embedding of `getOrCreateBucket` (lines 206-220): look up the key, lazily creating a
full bucket (`tokens = maxTokens`, both timestamps `now`) on a miss.  Returns
the bucket together with the (possibly extended) store. -/
def getOrCreateBucket (cfg : ResolvedConfig) (m : BucketMap) (key : String)
    (now : ℚ) : TokenBucket × BucketMap :=
  match findBucket m key with
  | some b => (b, m)
  | none =>
      let b : TokenBucket :=
        { tokens := cfg.maxTokens, lastRefill := now, lastAccessed := now }
      (b, setBucket m key b)

/-- Embedding of `tryConsume` (lines 78-109): get-or-create, stamp `lastAccessed`, refill,
then either decrement and answer `allowed`, or answer denial with
`tokensRemaining = 0` and `retryAfter = Math.max(0, 1 * (refillInterval /
refillRate))` (which is `Infinity` when `refillRate == 0`). -/
def tryConsume (cfg : ResolvedConfig) (m : BucketMap) (key : String)
    (now : ℚ) : RateLimitResult × BucketMap :=
  let res := getOrCreateBucket cfg m key now
  let b1 := { res.1 with lastAccessed := now }
  let b2 := refillBucket cfg b1 now
  if 0 < b2.tokens then
    let b3 := { b2 with tokens := b2.tokens - 1 }
    ({ allowed := true
       tokensRemaining := b3.tokens
       resetTime := calculateResetTime cfg b3 now
       retryAfter := none },
     setBucket res.2 key b3)
  else
    let retryAfter : ENum :=
      if cfg.refillRate = 0 then .inf
      else .fin (max 0 (1 * (cfg.refillInterval / cfg.refillRate)))
    ({ allowed := false
       tokensRemaining := 0
       resetTime := calculateResetTime cfg b2 now
       retryAfter := some retryAfter },
     setBucket res.2 key b2)

/-- Embedding of `getStatus` (lines 116-131): same lookup, access-stamp and refill as
`tryConsume` but with no decrement; `allowed` is `tokens > 0`. -/
def getStatus (cfg : ResolvedConfig) (m : BucketMap) (key : String)
    (now : ℚ) : RateLimitResult × BucketMap :=
  let res := getOrCreateBucket cfg m key now
  let b1 := { res.1 with lastAccessed := now }
  let b2 := refillBucket cfg b1 now
  ({ allowed := 0 < b2.tokens
     tokensRemaining := b2.tokens
     resetTime := calculateResetTime cfg b2 now
     retryAfter := none },
   setBucket res.2 key b2)

/-- Embedding of `reset` (lines 137-139). -/
def reset (m : BucketMap) (key : String) : BucketMap :=
  eraseBucket m key

/-- Embedding of `resetAll` (lines 144-146). -/
def resetAll (_m : BucketMap) : BucketMap :=
  []

/-- Embedding of `getBucketCount` (lines 151-153). -/
def getBucketCount (m : BucketMap) : ℕ :=
  m.length

/-- Embedding of `cleanup` (lines 158-171): delete exactly the buckets with
`now - lastAccessed > bucketTTL`. -/
def cleanup (cfg : ResolvedConfig) (m : BucketMap) (now : ℚ) : BucketMap :=
  m.filter (fun p => ¬ (cfg.bucketTTL < now - p.2.lastAccessed))

/-- Embedding of `destroy` (lines 176-182): clears the store (timer teardown has no
counterpart in the functional model). -/
def destroy (_m : BucketMap) : BucketMap :=
  []

/-- One externally triggerable state transition of a limiter instance, tagged
with the clock reading at which it runs. -/
inductive Op where
  | tryConsumeOp (key : String) (now : ℚ)
  | getStatusOp (key : String) (now : ℚ)
  | resetOp (key : String)
  | resetAllOp
  | cleanupOp (now : ℚ)
  deriving Repr

/-- Apply one operation to the store, discarding the returned result. -/
def applyOp (cfg : ResolvedConfig) (m : BucketMap) : Op → BucketMap
  | .tryConsumeOp key now => (tryConsume cfg m key now).2
  | .getStatusOp key now => (getStatus cfg m key now).2
  | .resetOp key => reset m key
  | .resetAllOp => resetAll m
  | .cleanupOp now => cleanup cfg m now

/-- Run a sequence of operations from a starting store. -/
def runOps (cfg : ResolvedConfig) (m : BucketMap) : List Op → BucketMap
  | [] => m
  | op :: rest => runOps cfg (applyOp cfg m op) rest

/-- The rational `q` is integer-valued. -/
def IsIntQ (q : ℚ) : Prop := ∃ z : ℤ, q = (z : ℚ)

/-- The per-bucket invariant of the spec's data model: the token count is an
integer within `[0, maxTokens]`. -/
def GoodBucket (cfg : ResolvedConfig) (b : TokenBucket) : Prop :=
  IsIntQ b.tokens ∧ 0 ≤ b.tokens ∧ b.tokens ≤ cfg.maxTokens

/-- Every bucket stored in the map satisfies the bucket invariant. -/
def GoodMap (cfg : ResolvedConfig) (m : BucketMap) : Prop :=
  ∀ p ∈ m, GoodBucket cfg p.2

/-!
## Client embedding (`ff14-api-client.ts`)

The HTTP layer (`http-client.ts`) is abstracted as a value of `HttpOutcome`
describing what `this.httpClient.get(url)` did; the per-shape response
validators (`validateJob` etc., and the element-wise loop for array
responses) are abstracted as one boolean predicate on the response value.
Only the rate-limit gate is analysed, and it runs before either is touched.
-/

/-- Embedding of `FF14APIClientError` (`ff14-api-client.ts` lines 30-40). -/
structure FF14APIClientError where
  message : String
  statusCode : Option ℕ
  endpoint : Option String
  deriving DecidableEq, Repr

/-- Abstraction of the underlying `httpClient.get` call: it resolves with a
response value, rejects with an `HTTP <status>` error (whose parsed status
code we carry directly), or rejects with some other (network) error. -/
inductive HttpOutcome (α : Type) where
  | success : α → HttpOutcome α
  | httpError : Option ℕ → HttpOutcome α
  | networkFailure : String → HttpOutcome α
  deriving Repr

/-- The client's fixed limiter key (`this.rateLimitKey`, line 46). -/
def rateLimitKey : String := "ff14-api-client"

/-- Result of one `makeRequest` call: the value or error produced, the
limiter state afterwards, and whether the outbound HTTP request was
attempted. -/
structure RequestOutcome (α : Type) where
  result : Except FF14APIClientError α
  limiter : BucketMap
  httpAttempted : Bool

/-- Embedding of `FF14APIClient.makeRequest` (lines 180-261): consume from the limiter
under the fixed key; on denial throw the 429 `FF14APIClientError` without
touching the HTTP client; otherwise perform the request, validate the
response (`responseValid` abstracts the array/single validator dispatch of
lines 201-218), fall back on 404 when a fallback value was supplied, and map
the remaining failures to client errors (interpolated message details are
abbreviated to their constant leading text). -/
def makeRequest {α : Type} (cfg : ResolvedConfig) (m : BucketMap) (now : ℚ)
    (endpoint : String) (fallback : Option α) (responseValid : α → Bool)
    (http : HttpOutcome α) : RequestOutcome α :=
  let rl := tryConsume cfg m rateLimitKey now
  if rl.1.allowed then
    match http with
    | .success a =>
        if responseValid a then
          { result := .ok a, limiter := rl.2, httpAttempted := true }
        else
          { result := .error
              ⟨"Invalid data structure received from " ++ endpoint,
                some 200, some endpoint⟩
            limiter := rl.2, httpAttempted := true }
    | .httpError status =>
        match fallback, status with
        | some fb, some 404 =>
            { result := .ok fb, limiter := rl.2, httpAttempted := true }
        | _, _ =>
            { result := .error ⟨"API request failed", status, some endpoint⟩
              limiter := rl.2, httpAttempted := true }
    | .networkFailure _ =>
        { result := .error
            ⟨"Network error when accessing " ++ endpoint, none, some endpoint⟩
          limiter := rl.2, httpAttempted := true }
  else
    { result := .error
        ⟨"Rate limit exceeded. Please try again later.", some 429, some endpoint⟩
      limiter := rl.2, httpAttempted := false }

/-- Result of one `healthCheck` call: whether the reported `status` field is
`'ok'`, the limiter state afterwards, and whether the outbound HTTP request
was attempted. -/
structure HealthOutcome where
  statusOk : Bool
  limiter : BucketMap
  httpAttempted : Bool

/-- Embedding of `FF14APIClient.healthCheck` (lines 142-163): consume from the limiter
under the fixed key; on denial the thrown `Rate limit exceeded` error is
caught by the surrounding handler, which reports `status: 'error'` without
the HTTP request having been attempted; otherwise the request is made and
`status` is `'ok'` exactly when the response's `status` field is `'ok'`
(any rejection is likewise caught and reported as `'error'`). -/
def healthCheck (cfg : ResolvedConfig) (m : BucketMap) (now : ℚ)
    (http : HttpOutcome String) : HealthOutcome :=
  let rl := tryConsume cfg m rateLimitKey now
  if rl.1.allowed then
    match http with
    | .success s =>
        { statusOk := s = "ok", limiter := rl.2, httpAttempted := true }
    | .httpError _ =>
        { statusOk := false, limiter := rl.2, httpAttempted := true }
    | .networkFailure _ =>
        { statusOk := false, limiter := rl.2, httpAttempted := true }
  else
    { statusOk := false, limiter := rl.2, httpAttempted := false }

/-- The bucket both `tryConsume` and `getStatus` operate on: the found or
lazily created bucket, with `lastAccessed` stamped and the refill applied. -/
def accessedBucket (cfg : ResolvedConfig) (m : BucketMap) (key : String)
    (now : ℚ) : TokenBucket :=
  refillBucket cfg
    { (getOrCreateBucket cfg m key now).1 with lastAccessed := now } now

/-! ## Store lemmas -/

theorem findBucket_setBucket_self (m : BucketMap) (key : String)
    (b : TokenBucket) : findBucket (setBucket m key b) key = some b := by
  simp [setBucket, findBucket]

theorem findBucket_eraseBucket_self (m : BucketMap) (key : String) :
    findBucket (eraseBucket m key) key = none := by
  induction m with
  | nil => rfl
  | cons p rest ih =>
      by_cases h : p.1 = key
      · simpa [eraseBucket, h] using ih
      · simpa [eraseBucket, findBucket, h] using ih

theorem findBucket_eraseBucket_ne (m : BucketMap) (key k : String)
    (h : k ≠ key) : findBucket (eraseBucket m key) k = findBucket m k := by
  induction m with
  | nil => rfl
  | cons p rest ih =>
      have hsym : key ≠ k := fun hk => h hk.symm
      by_cases hp : p.1 = key
      · have hpk : p.1 ≠ k := fun hk => h (hk ▸ hp)
        simpa [eraseBucket, findBucket, List.filter_cons, hp, hpk, hsym] using ih
      · by_cases hk : p.1 = k
        · simp [eraseBucket, findBucket, List.filter_cons, hp, hk, h, hsym]
        · simpa [eraseBucket, findBucket, List.filter_cons, hp, hk, h, hsym] using ih

theorem findBucket_setBucket_ne (m : BucketMap) (key k : String)
    (b : TokenBucket) (h : k ≠ key) :
    findBucket (setBucket m key b) k = findBucket m k := by
  have hkey : key ≠ k := fun hk => h hk.symm
  simp [setBucket, findBucket, hkey, findBucket_eraseBucket_ne m key k h]

theorem findBucket_mem {m : BucketMap} {k : String} {b : TokenBucket}
    (h : findBucket m k = some b) : (k, b) ∈ m := by
  induction m with
  | nil => simp [findBucket] at h
  | cons p rest ih =>
      by_cases hp : p.1 = k
      · simp only [findBucket, hp, if_pos] at h
        obtain ⟨b0⟩ := p
        cases h
        simp_all
      · simp only [findBucket, hp, if_neg, not_false_iff] at h
        exact List.mem_cons_of_mem _ (ih h)

theorem mem_eraseBucket {m : BucketMap} {key : String}
    {p : String × TokenBucket} (h : p ∈ eraseBucket m key) : p ∈ m :=
  List.mem_of_mem_filter h

theorem mem_setBucket {m : BucketMap} {key : String} {b : TokenBucket}
    {p : String × TokenBucket} (h : p ∈ setBucket m key b) :
    p = (key, b) ∨ p ∈ m := by
  rcases List.mem_cons.mp h with h | h
  · exact Or.inl h
  · exact Or.inr (mem_eraseBucket h)

/-! ## Refill lemmas -/

theorem refillBucket_rate_zero (cfg : ResolvedConfig) (b : TokenBucket)
    (now : ℚ) (h : cfg.refillRate = 0) : refillBucket cfg b now = b := by
  simp [refillBucket, h]

theorem refillBucket_lastAccessed (cfg : ResolvedConfig) (b : TokenBucket)
    (now : ℚ) : (refillBucket cfg b now).lastAccessed = b.lastAccessed := by
  unfold refillBucket
  split_ifs <;> rfl

/-- For nonnegative dividend and positive divisor, the JavaScript remainder
lies in `[0, c)`. -/
theorem jsMod_bounds {a c : ℚ} (ha : 0 ≤ a) (hc : 0 < c) :
    0 ≤ jsMod a c ∧ jsMod a c < c := by
  have hq : 0 ≤ a / c := div_nonneg ha hc.le
  have h1 : ((⌊a / c⌋ : ℤ) : ℚ) ≤ a / c := Int.floor_le _
  have h2 : a / c < ((⌊a / c⌋ : ℤ) : ℚ) + 1 := Int.lt_floor_add_one _
  have hca : c * (a / c) = a := by
    field_simp
  unfold jsMod jsTrunc
  rw [if_pos hq]
  constructor
  · nlinarith
  · nlinarith

/-- In the refill branch the elapsed-interval count is positive only when the
interval itself is positive (the dividend `now - lastRefill` being
nonnegative). -/
theorem pos_floor_imp_pos_interval {a c : ℚ} (ha : 0 ≤ a)
    (h : 0 < ⌊a / c⌋) : 0 < c := by
  rcases lt_trichotomy c 0 with hc | hc | hc
  · exfalso
    have hq : a / c ≤ 0 := by
      have hinv : c⁻¹ ≤ 0 := (inv_nonpos).mpr hc.le
      calc a / c = a * c⁻¹ := div_eq_mul_inv a c
        _ ≤ 0 := mul_nonpos_iff.mpr (Or.inl ⟨ha, hinv⟩)
    have hfl : ⌊a / c⌋ ≤ 0 := Int.floor_nonpos hq
    omega
  · exfalso
    rw [hc, div_zero] at h
    simp at h
  · exact hc

theorem refillBucket_tokens_case (cfg : ResolvedConfig) (b : TokenBucket)
    (now : ℚ) :
    (refillBucket cfg b now).tokens = b.tokens ∨
      (∃ k : ℤ, 0 < k ∧
        (refillBucket cfg b now).tokens =
          min cfg.maxTokens (b.tokens + (k : ℚ) * cfg.refillRate)) := by
  unfold refillBucket
  split_ifs with h1 h2 h3
  · exact Or.inl rfl
  · exact Or.inl rfl
  · exact Or.inr ⟨_, h3, rfl⟩
  · exact Or.inl rfl

theorem refillBucket_tokens_mono (cfg : ResolvedConfig) (b : TokenBucket)
    (now : ℚ) (hr : 0 ≤ cfg.refillRate) (hb : b.tokens ≤ cfg.maxTokens) :
    b.tokens ≤ (refillBucket cfg b now).tokens := by
  rcases refillBucket_tokens_case cfg b now with h | ⟨k, hk, h⟩
  · rw [h]
  · rw [h]
    have hkq : (0 : ℚ) ≤ (k : ℚ) := by exact_mod_cast hk.le
    exact le_min hb (le_add_of_nonneg_right (mul_nonneg hkq hr))

theorem refillBucket_lastRefill_le (cfg : ResolvedConfig) (b : TokenBucket)
    (now : ℚ) (hb : b.lastRefill ≤ now) :
    (refillBucket cfg b now).lastRefill ≤ now := by
  unfold refillBucket
  split_ifs with h1 h2 h3
  · exact hb
  · exact le_refl _
  · have hc : 0 < cfg.refillInterval :=
      pos_floor_imp_pos_interval (sub_nonneg.mpr hb) h3
    have hmod := (jsMod_bounds (sub_nonneg.mpr hb) hc).1
    show now - jsMod (now - b.lastRefill) cfg.refillInterval ≤ now
    linarith
  · exact hb

theorem refillBucket_tokens_le_max (cfg : ResolvedConfig) (b : TokenBucket)
    (now : ℚ) (hb : b.tokens ≤ cfg.maxTokens) :
    (refillBucket cfg b now).tokens ≤ cfg.maxTokens := by
  unfold refillBucket
  split_ifs with h1 h2 h3
  · exact hb
  · exact hb
  · exact min_le_left _ _
  · exact hb

theorem refillBucket_tokens_nonneg (cfg : ResolvedConfig) (b : TokenBucket)
    (now : ℚ) (hmax : 0 ≤ cfg.maxTokens) (hr : 0 ≤ cfg.refillRate)
    (hb : 0 ≤ b.tokens) : 0 ≤ (refillBucket cfg b now).tokens := by
  rcases refillBucket_tokens_case cfg b now with h | ⟨k, hk, h⟩
  · rw [h]; exact hb
  · rw [h]
    have hkq : (0 : ℚ) ≤ (k : ℚ) := by exact_mod_cast hk.le
    exact le_min hmax (add_nonneg hb (mul_nonneg hkq hr))

theorem refillBucket_tokens_int (cfg : ResolvedConfig) (b : TokenBucket)
    (now : ℚ) (hM : IsIntQ cfg.maxTokens) (hR : IsIntQ cfg.refillRate)
    (hb : IsIntQ b.tokens) : IsIntQ (refillBucket cfg b now).tokens := by
  obtain ⟨zM, hzM⟩ := hM
  obtain ⟨zR, hzR⟩ := hR
  obtain ⟨zb, hzb⟩ := hb
  rcases refillBucket_tokens_case cfg b now with h | ⟨k, _, h⟩
  · exact ⟨zb, h ▸ hzb⟩
  · refine ⟨min zM (zb + k * zR), ?_⟩
    rw [h, hzM, hzb, hzR]
    push_cast
    rfl

theorem refillBucket_tokens_backward (cfg : ResolvedConfig) (b : TokenBucket)
    (now : ℚ) (hlt : now < b.lastRefill) :
    (refillBucket cfg b now).tokens = b.tokens := by
  unfold refillBucket
  split_ifs with h1
  · rfl
  · rfl

/-- A freshly created bucket (`lastRefill = now`) is unchanged by the refill
run in the same call. -/
theorem refillBucket_fresh (cfg : ResolvedConfig) (T la now : ℚ) :
    refillBucket cfg { tokens := T, lastRefill := now, lastAccessed := la } now =
      { tokens := T, lastRefill := now, lastAccessed := la } := by
  simp [refillBucket]

/-- Running the refill a second time at the same clock reading is a no-op:
the remainder left in `lastRefill` is strictly below one interval. -/
theorem refillBucket_idem (cfg : ResolvedConfig) (b : TokenBucket) (now : ℚ) :
    refillBucket cfg (refillBucket cfg b now) now = refillBucket cfg b now := by
  by_cases h1 : cfg.refillRate = 0
  · rw [refillBucket_rate_zero _ _ _ h1, refillBucket_rate_zero _ _ _ h1]
  · by_cases h2 : now < b.lastRefill
    · have hinner : refillBucket cfg b now = { b with lastRefill := now } := by
        unfold refillBucket
        rw [if_neg h1, if_pos h2]
      rw [hinner]
      simp [refillBucket, h1]
    · by_cases h3 : 0 < ⌊(now - b.lastRefill) / cfg.refillInterval⌋
      · have ha : (0 : ℚ) ≤ now - b.lastRefill := sub_nonneg.mpr (not_lt.mp h2)
        have hc : 0 < cfg.refillInterval := pos_floor_imp_pos_interval ha h3
        have hmod := jsMod_bounds ha hc
        have hinner : refillBucket cfg b now =
            { b with
              tokens := min cfg.maxTokens
                (b.tokens + (⌊(now - b.lastRefill) / cfg.refillInterval⌋ : ℚ) *
                  cfg.refillRate)
              lastRefill := now - jsMod (now - b.lastRefill) cfg.refillInterval } := by
          unfold refillBucket
          rw [if_neg h1, if_neg h2, if_pos h3]
        rw [hinner]
        have hfloor0 :
            ⌊(now - (now - jsMod (now - b.lastRefill) cfg.refillInterval)) /
              cfg.refillInterval⌋ = 0 := by
          have heq : now - (now - jsMod (now - b.lastRefill) cfg.refillInterval) =
              jsMod (now - b.lastRefill) cfg.refillInterval := by ring
          rw [heq]
          exact Int.floor_eq_zero_iff.mpr
            ⟨div_nonneg hmod.1 hc.le, (div_lt_one hc).mpr hmod.2⟩
        have hnolt : ¬ now < now - jsMod (now - b.lastRefill) cfg.refillInterval := by
          have := hmod.1
          intro hcon
          linarith
        unfold refillBucket
        rw [if_neg h1]
        rw [if_neg hnolt, if_neg (by rw [hfloor0]; omega)]
      · have hinner : refillBucket cfg b now = b := by
          unfold refillBucket
          rw [if_neg h1, if_neg h2, if_neg h3]
        rw [hinner, hinner]

/-! ## Characterizations of the public operations -/

theorem getOrCreateBucket_found (cfg : ResolvedConfig) {m : BucketMap}
    {key : String} {b : TokenBucket} (now : ℚ)
    (h : findBucket m key = some b) :
    getOrCreateBucket cfg m key now = (b, m) := by
  unfold getOrCreateBucket
  rw [h]

theorem getOrCreateBucket_missing (cfg : ResolvedConfig) {m : BucketMap}
    {key : String} (now : ℚ) (h : findBucket m key = none) :
    getOrCreateBucket cfg m key now =
      ({ tokens := cfg.maxTokens, lastRefill := now, lastAccessed := now },
        setBucket m key
          { tokens := cfg.maxTokens, lastRefill := now, lastAccessed := now }) := by
  unfold getOrCreateBucket
  rw [h]

theorem getStatus_eq (cfg : ResolvedConfig) (m : BucketMap) (key : String)
    (now : ℚ) :
    getStatus cfg m key now =
      ({ allowed := 0 < (accessedBucket cfg m key now).tokens
         tokensRemaining := (accessedBucket cfg m key now).tokens
         resetTime := calculateResetTime cfg (accessedBucket cfg m key now) now
         retryAfter := none },
       setBucket (getOrCreateBucket cfg m key now).2 key
        (accessedBucket cfg m key now)) := rfl

theorem tryConsume_pos (cfg : ResolvedConfig) (m : BucketMap) (key : String)
    (now : ℚ) (h : 0 < (accessedBucket cfg m key now).tokens) :
    tryConsume cfg m key now =
      ({ allowed := true
         tokensRemaining := (accessedBucket cfg m key now).tokens - 1
         resetTime := calculateResetTime cfg
          { accessedBucket cfg m key now with
            tokens := (accessedBucket cfg m key now).tokens - 1 } now
         retryAfter := none },
       setBucket (getOrCreateBucket cfg m key now).2 key
        { accessedBucket cfg m key now with
          tokens := (accessedBucket cfg m key now).tokens - 1 }) := by
  have hx : 0 < (refillBucket cfg
      { (getOrCreateBucket cfg m key now).1 with lastAccessed := now } now).tokens := h
  unfold tryConsume
  simp only []
  split_ifs with hc
  · rfl
  · exact absurd hx hc

theorem tryConsume_nonpos (cfg : ResolvedConfig) (m : BucketMap) (key : String)
    (now : ℚ) (h : ¬ 0 < (accessedBucket cfg m key now).tokens) :
    tryConsume cfg m key now =
      ({ allowed := false
         tokensRemaining := 0
         resetTime := calculateResetTime cfg (accessedBucket cfg m key now) now
         retryAfter := some (if cfg.refillRate = 0 then .inf
          else .fin (max 0 (1 * (cfg.refillInterval / cfg.refillRate)))) },
       setBucket (getOrCreateBucket cfg m key now).2 key
        (accessedBucket cfg m key now)) := by
  have hx : ¬ 0 < (refillBucket cfg
      { tokens := (getOrCreateBucket cfg m key now).1.tokens
        lastRefill := (getOrCreateBucket cfg m key now).1.lastRefill
        lastAccessed := now } now).tokens := h
  unfold tryConsume
  simp only []
  rw [if_neg hx]
  rfl

/-! ## Configuration validation lemmas -/

theorem option_pos_iff (o : Option ℚ) :
    (¬(o.isSome ∧ o.getD 1 ≤ 0)) ↔ (∀ x, o = some x → 0 < x) := by
  cases o <;> simp [not_le]

theorem validateConfig_ok_iff (c : RateLimitConfig) :
    validateConfig c = Except.ok () ↔
      (0 < c.maxTokens ∧ 0 ≤ c.refillRate ∧ 0 < c.refillInterval ∧
        (∀ x, c.cleanupInterval = some x → 0 < x) ∧
        (∀ x, c.bucketTTL = some x → 0 < x)) := by
  constructor
  · intro h
    unfold validateConfig at h
    split_ifs at h with h1 h2 h3 h4 h5
    push_neg at h1 h2 h3
    exact ⟨h1, h2, h3, (option_pos_iff _).mp h4, (option_pos_iff _).mp h5⟩
  · rintro ⟨h1, h2, h3, h4, h5⟩
    unfold validateConfig
    rw [if_neg (not_le.mpr h1), if_neg (not_lt.mpr h2), if_neg (not_le.mpr h3),
      if_neg ((option_pos_iff _).mpr h4), if_neg ((option_pos_iff _).mpr h5)]

theorem validateConfig_error_iff (c : RateLimitConfig) :
    (∃ e, validateConfig c = Except.error e) ↔
      ¬(validateConfig c = Except.ok ()) := by
  cases h : validateConfig c with
  | ok u => cases u; simp
  | error e => simp

/-! ## Claim C2 -/

/-- C2: for a bucket with `refillRate > 0`, `refillInterval > 0` and
`now ≥ lastRefillTime`, the refill step computes
`elapsedIntervals = floor((now - lastRefillTime) / refillInterval)`; when it
is positive it adds exactly `elapsedIntervals * refillRate` tokens capped at
`maxTokens` and advances `lastRefillTime` by exactly
`elapsedIntervals * refillInterval` (preserving the remainder of elapsed
time); when it is zero the bucket is unchanged. -/
theorem C2_refill_computation (cfg : ResolvedConfig) (b : TokenBucket)
    (now : ℚ) (hr : 0 < cfg.refillRate) (hi : 0 < cfg.refillInterval)
    (hmono : b.lastRefill ≤ now) :
    (0 < ⌊(now - b.lastRefill) / cfg.refillInterval⌋ →
      refillBucket cfg b now =
        { tokens := min cfg.maxTokens
            (b.tokens + (⌊(now - b.lastRefill) / cfg.refillInterval⌋ : ℚ) *
              cfg.refillRate)
          lastRefill := b.lastRefill +
            (⌊(now - b.lastRefill) / cfg.refillInterval⌋ : ℚ) * cfg.refillInterval
          lastAccessed := b.lastAccessed }) ∧
    (⌊(now - b.lastRefill) / cfg.refillInterval⌋ = 0 →
      refillBucket cfg b now = b) := by
  constructor
  · intro hk
    unfold refillBucket
    rw [if_neg (ne_of_gt hr), if_neg (not_lt.mpr hmono), if_pos hk]
    simp only [TokenBucket.mk.injEq]
    refine ⟨trivial, ?_, trivial⟩
    unfold jsMod jsTrunc
    rw [if_pos (div_nonneg (sub_nonneg.mpr hmono) hi.le)]
    ring
  · intro hk
    unfold refillBucket
    rw [if_neg (ne_of_gt hr), if_neg (not_lt.mpr hmono), if_neg (by omega)]

/-- C2 witness: with `maxTokens = 3`, `refillRate = 5`,
`refillInterval = 1000`, a bucket empty since time 0 queried at 2500 sees 2
elapsed intervals, caps at 3 tokens, and keeps `lastRefill = 2000`. -/
theorem C2_refill_computation_witness :
    (0 < ⌊((2500 : ℚ) - 0) / 1000⌋) ∧
    refillBucket (resolveConfig
        { maxTokens := 3, refillRate := 5, refillInterval := 1000 })
      { tokens := 0, lastRefill := 0, lastAccessed := 0 } 2500 =
      { tokens := min 3 (0 + (⌊((2500 : ℚ) - 0) / 1000⌋ : ℚ) * 5)
        lastRefill := 0 + (⌊((2500 : ℚ) - 0) / 1000⌋ : ℚ) * 1000
        lastAccessed := 0 } :=
  ⟨by norm_num,
    (C2_refill_computation
      (resolveConfig { maxTokens := 3, refillRate := 5, refillInterval := 1000 })
      { tokens := 0, lastRefill := 0, lastAccessed := 0 } 2500
      (by norm_num [resolveConfig]) (by norm_num [resolveConfig])
      (by norm_num)).1 (by norm_num [resolveConfig])⟩

/-! ## Claim C3 -/

/-- C3 counterexample: the claim asserts that on every call with
`now < lastRefillTime` the refill step sets `lastRefillTime = now`; but with
`refillRate = 0` (a valid configuration) the refill step returns before the
clock-anomaly branch, leaving `lastRefillTime` unchanged (here `100 ≠ 50`). -/
theorem C3_counterexample :
    validateConfig { maxTokens := 1, refillRate := 0, refillInterval := 1000 } =
      Except.ok () ∧
    (50 : ℚ) < ({ tokens := 1, lastRefill := 100, lastAccessed := 0 } :
      TokenBucket).lastRefill ∧
    refillBucket (resolveConfig
        { maxTokens := 1, refillRate := 0, refillInterval := 1000 })
      { tokens := 1, lastRefill := 100, lastAccessed := 0 } 50 =
      { tokens := 1, lastRefill := 100, lastAccessed := 0 } ∧
    ¬ (refillBucket (resolveConfig
        { maxTokens := 1, refillRate := 0, refillInterval := 1000 })
      { tokens := 1, lastRefill := 100, lastAccessed := 0 } 50).lastRefill = 50 := by
  refine ⟨rfl, by decide, by decide, by decide⟩

/-- C3 (amended): on a call with `now < lastRefillTime` the refill step never
changes the token count; when `refillRate ≠ 0` it resets
`lastRefillTime = now`, while when `refillRate = 0` the refill is skipped
entirely and the bucket is unchanged.  In both cases `tryConsume` and
`getStatus` return a well-formed result that grants no extra tokens: the
post-refill count reported by `getStatus` equals the stored count, and a
successful `tryConsume` reports exactly one token less. -/
theorem C3_clock_backward (cfg : ResolvedConfig) (b : TokenBucket) (now : ℚ)
    (hlt : now < b.lastRefill) :
    (refillBucket cfg b now).tokens = b.tokens ∧
    (cfg.refillRate ≠ 0 →
      refillBucket cfg b now = { b with lastRefill := now }) ∧
    (cfg.refillRate = 0 → refillBucket cfg b now = b) ∧
    (∀ m key, findBucket m key = some b →
      (getStatus cfg m key now).1.tokensRemaining = b.tokens ∧
      ((tryConsume cfg m key now).1.allowed = true →
        (tryConsume cfg m key now).1.tokensRemaining = b.tokens - 1)) := by
  have htok := refillBucket_tokens_backward cfg b now hlt
  refine ⟨htok, ?_, ?_, ?_⟩
  · intro h0
    unfold refillBucket
    rw [if_neg h0, if_pos hlt]
  · intro h0
    exact refillBucket_rate_zero cfg b now h0
  · intro m key hm
    have hacc : (accessedBucket cfg m key now).tokens = b.tokens := by
      unfold accessedBucket
      rw [getOrCreateBucket_found cfg now hm]
      exact refillBucket_tokens_backward cfg _ now hlt
    constructor
    · rw [getStatus_eq]
      exact hacc
    · intro hallowed
      by_cases hp : 0 < (accessedBucket cfg m key now).tokens
      · rw [tryConsume_pos cfg m key now hp]
        simp only
        rw [hacc]
      · rw [tryConsume_nonpos cfg m key now hp] at hallowed
        simp at hallowed

/-- C3 (amended) witness: concrete clock-backward call with
`refillRate = 2`, a bucket whose `lastRefill` is 100, queried at 50. -/
theorem C3_clock_backward_witness :
    ((50 : ℚ) < ({ tokens := 1, lastRefill := 100, lastAccessed := 0 } :
      TokenBucket).lastRefill) ∧
    (refillBucket (resolveConfig
        { maxTokens := 2, refillRate := 2, refillInterval := 1000 })
      { tokens := 1, lastRefill := 100, lastAccessed := 0 } 50).tokens = 1 :=
  ⟨by decide,
    (C3_clock_backward (resolveConfig
        { maxTokens := 2, refillRate := 2, refillInterval := 1000 })
      { tokens := 1, lastRefill := 100, lastAccessed := 0 } 50 (by decide)).1⟩

/-! ## Claim C4 -/

/-- C4: with `refillRate = 0` no refill ever occurs — the refill step is the
identity on every bucket — so token counts never replenish, and once a key's
stored count is 0 (or below) every later `tryConsume` on it is denied no
matter how much time has elapsed. -/
theorem C4_zero_refill (cfg : ResolvedConfig) (h0 : cfg.refillRate = 0) :
    (∀ b now, refillBucket cfg b now = b) ∧
    (∀ m key now b, findBucket m key = some b →
      (∀ b2, findBucket (tryConsume cfg m key now).2 key = some b2 →
        b2.tokens ≤ b.tokens) ∧
      (b.tokens ≤ 0 → (tryConsume cfg m key now).1.allowed = false)) := by
  refine ⟨fun b now => refillBucket_rate_zero cfg b now h0, ?_⟩
  intro m key now b hm
  have hacc : accessedBucket cfg m key now = { b with lastAccessed := now } := by
    unfold accessedBucket
    rw [getOrCreateBucket_found cfg now hm]
    exact refillBucket_rate_zero cfg _ now h0
  constructor
  · intro b2 hb2
    by_cases hp : 0 < (accessedBucket cfg m key now).tokens
    · rw [tryConsume_pos cfg m key now hp] at hb2
      simp only at hb2
      rw [getOrCreateBucket_found cfg now hm, findBucket_setBucket_self] at hb2
      cases hb2
      show (accessedBucket cfg m key now).tokens - 1 ≤ b.tokens
      rw [hacc]
      show b.tokens - 1 ≤ b.tokens
      linarith
    · rw [tryConsume_nonpos cfg m key now hp] at hb2
      rw [getOrCreateBucket_found cfg now hm, findBucket_setBucket_self] at hb2
      cases hb2
      rw [hacc]
  · intro hz
    have hp : ¬ 0 < (accessedBucket cfg m key now).tokens := by
      rw [hacc]
      show ¬ 0 < b.tokens
      linarith
    rw [tryConsume_nonpos cfg m key now hp]

/-- C4 witness: `maxTokens = 1, refillRate = 0`; after consuming the single
token at time 0, a `tryConsume` one billion milliseconds later is denied. -/
theorem C4_zero_refill_witness :
    (tryConsume (resolveConfig
        { maxTokens := 1, refillRate := 0, refillInterval := 1000 })
      (tryConsume (resolveConfig
        { maxTokens := 1, refillRate := 0, refillInterval := 1000 })
        [] "k" 0).2 "k" 1000000000).1.allowed = false :=
  ((C4_zero_refill (resolveConfig
      { maxTokens := 1, refillRate := 0, refillInterval := 1000 }) rfl).2
    (tryConsume (resolveConfig
      { maxTokens := 1, refillRate := 0, refillInterval := 1000 }) [] "k" 0).2
    "k" 1000000000 { tokens := 0, lastRefill := 0, lastAccessed := 0 }
    (by norm_num [tryConsume, getOrCreateBucket, findBucket, setBucket,
      eraseBucket, refillBucket, resolveConfig, jsMod, jsTrunc])).2 (by norm_num)

/-! ## Claim C5 -/

/-- C5: for a bucket with `tokens < maxTokens`, `calculateResetTime` yields
`now + (maxTokens - tokens) * (refillInterval / refillRate)` when
`refillRate > 0`, and the explicit unreachable value (`ENum.inf`, the
embedding of the IEEE `Infinity` the source produces) when `refillRate = 0`;
for any bucket with `tokens ≥ maxTokens` it yields `now`. -/
theorem C5_resetTime (cfg : ResolvedConfig) (b : TokenBucket) (now : ℚ)
    (hlt : b.tokens < cfg.maxTokens) :
    (0 < cfg.refillRate →
      calculateResetTime cfg b now =
        .fin (now + (cfg.maxTokens - b.tokens) *
          (cfg.refillInterval / cfg.refillRate))) ∧
    (cfg.refillRate = 0 → calculateResetTime cfg b now = .inf) ∧
    (∀ b2 : TokenBucket, cfg.maxTokens ≤ b2.tokens →
      calculateResetTime cfg b2 now = .fin now) := by
  refine ⟨?_, ?_, ?_⟩
  · intro hr
    unfold calculateResetTime
    rw [if_neg (not_le.mpr hlt), if_neg (ne_of_gt hr)]
  · intro h0
    unfold calculateResetTime
    rw [if_neg (not_le.mpr hlt), if_pos h0]
  · intro b2 hfull
    unfold calculateResetTime
    rw [if_pos hfull]

/-- C5 witness: `maxTokens = 2, refillRate = 1, refillInterval = 1000`, one
token in the bucket at time 500: reset at `500 + 1 * 1000 = 1500`; with
`refillRate = 0` instead, the reset time is the unreachable sentinel; a full
bucket resets now. -/
theorem C5_resetTime_witness :
    (({ tokens := 1, lastRefill := 0, lastAccessed := 0 } :
        TokenBucket).tokens < (2 : ℚ)) ∧
    calculateResetTime (resolveConfig
        { maxTokens := 2, refillRate := 1, refillInterval := 1000 })
      { tokens := 1, lastRefill := 0, lastAccessed := 0 } 500 =
      .fin (500 + ((2 : ℚ) - 1) * (1000 / 1)) ∧
    calculateResetTime (resolveConfig
        { maxTokens := 2, refillRate := 0, refillInterval := 1000 })
      { tokens := 1, lastRefill := 0, lastAccessed := 0 } 500 = .inf ∧
    calculateResetTime (resolveConfig
        { maxTokens := 2, refillRate := 1, refillInterval := 1000 })
      { tokens := 2, lastRefill := 0, lastAccessed := 0 } 500 = .fin 500 :=
  ⟨by decide,
    (C5_resetTime (resolveConfig
        { maxTokens := 2, refillRate := 1, refillInterval := 1000 })
      { tokens := 1, lastRefill := 0, lastAccessed := 0 } 500 (by decide)).1
      (by decide),
    (C5_resetTime (resolveConfig
        { maxTokens := 2, refillRate := 0, refillInterval := 1000 })
      { tokens := 1, lastRefill := 0, lastAccessed := 0 } 500 (by decide)).2.1 rfl,
    (C5_resetTime (resolveConfig
        { maxTokens := 2, refillRate := 1, refillInterval := 1000 })
      { tokens := 1, lastRefill := 0, lastAccessed := 0 } 500 (by decide)).2.2
      { tokens := 2, lastRefill := 0, lastAccessed := 0 } (by decide)⟩

/-! ## Bucket invariant preservation -/

theorem IsIntQ.one_le {t : ℚ} (h : IsIntQ t) (hpos : 0 < t) : 1 ≤ t := by
  obtain ⟨z, rfl⟩ := h
  have hz : 0 < z := by exact_mod_cast hpos
  exact_mod_cast hz

theorem refillBucket_good (cfg : ResolvedConfig) (b : TokenBucket) (now : ℚ)
    (hM : IsIntQ cfg.maxTokens) (hR : IsIntQ cfg.refillRate)
    (hmax : 0 ≤ cfg.maxTokens) (hr : 0 ≤ cfg.refillRate)
    (hb : GoodBucket cfg b) : GoodBucket cfg (refillBucket cfg b now) :=
  ⟨refillBucket_tokens_int cfg b now hM hR hb.1,
    refillBucket_tokens_nonneg cfg b now hmax hr hb.2.1,
    refillBucket_tokens_le_max cfg b now hb.2.2⟩

theorem accessedBucket_good (cfg : ResolvedConfig) (m : BucketMap)
    (key : String) (now : ℚ) (hM : IsIntQ cfg.maxTokens)
    (hR : IsIntQ cfg.refillRate) (hmax : 0 < cfg.maxTokens)
    (hr : 0 ≤ cfg.refillRate) (hgood : GoodMap cfg m) :
    GoodBucket cfg (accessedBucket cfg m key now) := by
  unfold accessedBucket
  apply refillBucket_good cfg _ now hM hR hmax.le hr
  cases hf : findBucket m key with
  | some b =>
      rw [getOrCreateBucket_found cfg now hf]
      exact hgood _ (findBucket_mem hf)
  | none =>
      rw [getOrCreateBucket_missing cfg now hf]
      exact ⟨hM, hmax.le, le_refl _⟩

theorem getOrCreateBucket_good (cfg : ResolvedConfig) (m : BucketMap)
    (key : String) (now : ℚ) (hM : IsIntQ cfg.maxTokens)
    (hmax : 0 < cfg.maxTokens) (hgood : GoodMap cfg m) :
    GoodMap cfg (getOrCreateBucket cfg m key now).2 := by
  cases hf : findBucket m key with
  | some b =>
      rw [getOrCreateBucket_found cfg now hf]
      exact hgood
  | none =>
      rw [getOrCreateBucket_missing cfg now hf]
      intro p hp
      rcases mem_setBucket hp with h | h
      · rw [h]
        exact ⟨hM, hmax.le, le_refl _⟩
      · exact hgood _ h

theorem tryConsume_good (cfg : ResolvedConfig) (m : BucketMap) (key : String)
    (now : ℚ) (hM : IsIntQ cfg.maxTokens) (hR : IsIntQ cfg.refillRate)
    (hmax : 0 < cfg.maxTokens) (hr : 0 ≤ cfg.refillRate)
    (hgood : GoodMap cfg m) : GoodMap cfg (tryConsume cfg m key now).2 := by
  have hbase := getOrCreateBucket_good cfg m key now hM hmax hgood
  have hab := accessedBucket_good cfg m key now hM hR hmax hr hgood
  by_cases hp : 0 < (accessedBucket cfg m key now).tokens
  · rw [tryConsume_pos cfg m key now hp]
    intro p hmem
    simp only at hmem
    rcases mem_setBucket hmem with h | h
    · rw [h]
      have hone : 1 ≤ (accessedBucket cfg m key now).tokens :=
        IsIntQ.one_le hab.1 hp
      refine ⟨?_, ?_, ?_⟩
      · obtain ⟨z, hz⟩ := hab.1
        exact ⟨z - 1, by push_cast [hz]; ring⟩
      · show 0 ≤ (accessedBucket cfg m key now).tokens - 1
        linarith
      · show (accessedBucket cfg m key now).tokens - 1 ≤ cfg.maxTokens
        have := hab.2.2
        linarith
    · exact hbase _ h
  · rw [tryConsume_nonpos cfg m key now hp]
    intro p hmem
    rcases mem_setBucket hmem with h | h
    · rw [h]
      exact hab
    · exact hbase _ h

theorem getStatus_good (cfg : ResolvedConfig) (m : BucketMap) (key : String)
    (now : ℚ) (hM : IsIntQ cfg.maxTokens) (hR : IsIntQ cfg.refillRate)
    (hmax : 0 < cfg.maxTokens) (hr : 0 ≤ cfg.refillRate)
    (hgood : GoodMap cfg m) : GoodMap cfg (getStatus cfg m key now).2 := by
  have hbase := getOrCreateBucket_good cfg m key now hM hmax hgood
  have hab := accessedBucket_good cfg m key now hM hR hmax hr hgood
  rw [getStatus_eq]
  intro p hmem
  rcases mem_setBucket hmem with h | h
  · rw [h]
    exact hab
  · exact hbase _ h

theorem applyOp_good (cfg : ResolvedConfig) (hM : IsIntQ cfg.maxTokens)
    (hR : IsIntQ cfg.refillRate) (hmax : 0 < cfg.maxTokens)
    (hr : 0 ≤ cfg.refillRate) (m : BucketMap) (hgood : GoodMap cfg m)
    (op : Op) : GoodMap cfg (applyOp cfg m op) := by
  cases op with
  | tryConsumeOp key now => exact tryConsume_good cfg m key now hM hR hmax hr hgood
  | getStatusOp key now => exact getStatus_good cfg m key now hM hR hmax hr hgood
  | resetOp key => exact fun p hp => hgood _ (mem_eraseBucket hp)
  | resetAllOp => exact fun p hp => absurd hp (List.not_mem_nil p)
  | cleanupOp now => exact fun p hp => hgood _ (List.mem_of_mem_filter hp)

theorem runOps_good (cfg : ResolvedConfig) (hM : IsIntQ cfg.maxTokens)
    (hR : IsIntQ cfg.refillRate) (hmax : 0 < cfg.maxTokens)
    (hr : 0 ≤ cfg.refillRate) :
    ∀ (ops : List Op) (m : BucketMap), GoodMap cfg m →
      GoodMap cfg (runOps cfg m ops) := by
  intro ops
  induction ops with
  | nil => exact fun m hgood => hgood
  | cons op rest ih =>
      intro m hgood
      exact ih _ (applyOp_good cfg hM hR hmax hr m hgood op)

/-! ## Claim C1 -/

/-- C1 counterexample: the fractional configuration `maxTokens = 3/2,
refillRate = 1, refillInterval = 1000` passes validation, yet after two
successful consumes on key `"k"` at time 0 the reported `tokensRemaining`
and the stored token count are `-1/2 < 0`, violating the claimed
`[0, maxTokens]` bound. -/
theorem C1_counterexample :
    validateConfig { maxTokens := 3/2, refillRate := 1, refillInterval := 1000 } =
      Except.ok () ∧
    (tryConsume (resolveConfig
        { maxTokens := 3/2, refillRate := 1, refillInterval := 1000 })
      (tryConsume (resolveConfig
        { maxTokens := 3/2, refillRate := 1, refillInterval := 1000 })
        [] "k" 0).2 "k" 0).1.allowed = true ∧
    (tryConsume (resolveConfig
        { maxTokens := 3/2, refillRate := 1, refillInterval := 1000 })
      (tryConsume (resolveConfig
        { maxTokens := 3/2, refillRate := 1, refillInterval := 1000 })
        [] "k" 0).2 "k" 0).1.tokensRemaining = -(1/2) ∧
    findBucket (tryConsume (resolveConfig
        { maxTokens := 3/2, refillRate := 1, refillInterval := 1000 })
      (tryConsume (resolveConfig
        { maxTokens := 3/2, refillRate := 1, refillInterval := 1000 })
        [] "k" 0).2 "k" 0).2 "k" =
      some { tokens := -(1/2), lastRefill := 0, lastAccessed := 0 } := by
  refine ⟨by norm_num [validateConfig], ?_, ?_, ?_⟩ <;>
    norm_num [tryConsume, getOrCreateBucket, findBucket, setBucket, eraseBucket,
      refillBucket, accessedBucket, resolveConfig, jsMod, jsTrunc]

/-- C1 (amended): for every valid configuration whose `maxTokens` and
`refillRate` are integers, every finite operation sequence at arbitrary
(possibly non-monotonic) times keeps every stored bucket's token count an
integer within `[0, maxTokens]`; moreover `tokensRemaining` reported by a
further `tryConsume` is never below 0 and, on a successful consume, never
above `maxTokens - 1`. -/
theorem C1_token_bounds (rc : RateLimitConfig) (M R : ℤ)
    (hv : validateConfig rc = Except.ok ())
    (hM : rc.maxTokens = (M : ℚ)) (hR : rc.refillRate = (R : ℚ))
    (ops : List Op) (key : String) (now : ℚ) :
    GoodMap (resolveConfig rc) (runOps (resolveConfig rc) [] ops) ∧
    0 ≤ (tryConsume (resolveConfig rc) (runOps (resolveConfig rc) [] ops)
          key now).1.tokensRemaining ∧
    ((tryConsume (resolveConfig rc) (runOps (resolveConfig rc) [] ops)
          key now).1.allowed = true →
      (tryConsume (resolveConfig rc) (runOps (resolveConfig rc) [] ops)
          key now).1.tokensRemaining ≤ rc.maxTokens - 1) := by
  obtain ⟨hmax, hr, -, -, -⟩ := (validateConfig_ok_iff rc).mp hv
  have hMi : IsIntQ (resolveConfig rc).maxTokens := ⟨M, hM⟩
  have hRi : IsIntQ (resolveConfig rc).refillRate := ⟨R, hR⟩
  have hgood : GoodMap (resolveConfig rc) (runOps (resolveConfig rc) [] ops) :=
    runOps_good (resolveConfig rc) hMi hRi hmax hr ops []
      (fun p hp => absurd hp (List.not_mem_nil p))
  refine ⟨hgood, ?_, ?_⟩
  all_goals
    have hab := accessedBucket_good (resolveConfig rc)
      (runOps (resolveConfig rc) [] ops) key now hMi hRi hmax hr hgood
  · by_cases hp : 0 < (accessedBucket (resolveConfig rc)
        (runOps (resolveConfig rc) [] ops) key now).tokens
    · rw [tryConsume_pos _ _ _ _ hp]
      have hone := IsIntQ.one_le hab.1 hp
      show 0 ≤ (accessedBucket (resolveConfig rc)
        (runOps (resolveConfig rc) [] ops) key now).tokens - 1
      linarith
    · rw [tryConsume_nonpos _ _ _ _ hp]
  · by_cases hp : 0 < (accessedBucket (resolveConfig rc)
        (runOps (resolveConfig rc) [] ops) key now).tokens
    · rw [tryConsume_pos _ _ _ _ hp]
      intro hallowed
      have hle := hab.2.2
      show (accessedBucket (resolveConfig rc)
        (runOps (resolveConfig rc) [] ops) key now).tokens - 1 ≤ rc.maxTokens - 1
      have hmx : (resolveConfig rc).maxTokens = rc.maxTokens := rfl
      linarith [hmx ▸ hle]
    · rw [tryConsume_nonpos _ _ _ _ hp]
      intro hallowed
      simp at hallowed

/-- C1 (amended) witness: the integer configuration `maxTokens = 3,
refillRate = 1, refillInterval = 1000` run through a consume, a status query
and a cleanup keeps its buckets in bounds, with a further consume reporting
within `[0, 2]`. -/
theorem C1_token_bounds_witness :
    GoodMap (resolveConfig { maxTokens := 3, refillRate := 1, refillInterval := 1000 })
      (runOps (resolveConfig { maxTokens := 3, refillRate := 1, refillInterval := 1000 })
        [] [Op.tryConsumeOp "a" 0, Op.getStatusOp "a" 500, Op.cleanupOp 1000000]) ∧
    0 ≤ (tryConsume (resolveConfig { maxTokens := 3, refillRate := 1, refillInterval := 1000 })
        (runOps (resolveConfig { maxTokens := 3, refillRate := 1, refillInterval := 1000 })
          [] [Op.tryConsumeOp "a" 0, Op.getStatusOp "a" 500, Op.cleanupOp 1000000])
        "a" 1000000).1.tokensRemaining ∧
    ((tryConsume (resolveConfig { maxTokens := 3, refillRate := 1, refillInterval := 1000 })
        (runOps (resolveConfig { maxTokens := 3, refillRate := 1, refillInterval := 1000 })
          [] [Op.tryConsumeOp "a" 0, Op.getStatusOp "a" 500, Op.cleanupOp 1000000])
        "a" 1000000).1.allowed = true →
      (tryConsume (resolveConfig { maxTokens := 3, refillRate := 1, refillInterval := 1000 })
        (runOps (resolveConfig { maxTokens := 3, refillRate := 1, refillInterval := 1000 })
          [] [Op.tryConsumeOp "a" 0, Op.getStatusOp "a" 500, Op.cleanupOp 1000000])
        "a" 1000000).1.tokensRemaining ≤
        ({ maxTokens := 3, refillRate := 1, refillInterval := 1000 } :
          RateLimitConfig).maxTokens - 1) :=
  C1_token_bounds { maxTokens := 3, refillRate := 1, refillInterval := 1000 } 3 1
    (by norm_num [validateConfig]) (by norm_num) (by norm_num)
    [Op.tryConsumeOp "a" 0, Op.getStatusOp "a" 500, Op.cleanupOp 1000000] "a" 1000000

/-! ## Claim C6 -/

theorem accessedBucket_tokens_le_max (cfg : ResolvedConfig) (m : BucketMap)
    (key : String) (now : ℚ)
    (hb : ∀ b, findBucket m key = some b → b.tokens ≤ cfg.maxTokens) :
    (accessedBucket cfg m key now).tokens ≤ cfg.maxTokens := by
  unfold accessedBucket
  cases hf : findBucket m key with
  | some b =>
      rw [getOrCreateBucket_found cfg now hf]
      exact refillBucket_tokens_le_max cfg _ now (hb b hf)
  | none =>
      rw [getOrCreateBucket_missing cfg now hf]
      exact refillBucket_tokens_le_max cfg _ now (le_refl _)

theorem accessedBucket_lastAccessed (cfg : ResolvedConfig) (m : BucketMap)
    (key : String) (now : ℚ) :
    (accessedBucket cfg m key now).lastAccessed = now := by
  unfold accessedBucket
  rw [refillBucket_lastAccessed]

theorem withLastAccessed_self (b : TokenBucket) (t : ℚ)
    (h : b.lastAccessed = t) : { b with lastAccessed := t } = b := by
  cases b
  simp_all

theorem getStatus_tokens_of_found (cfg : ResolvedConfig) {m : BucketMap}
    {key : String} {b : TokenBucket} (now : ℚ)
    (h : findBucket m key = some b) :
    (getStatus cfg m key now).1.tokensRemaining =
      (refillBucket cfg { b with lastAccessed := now } now).tokens := by
  rw [getStatus_eq]
  show (accessedBucket cfg m key now).tokens = _
  unfold accessedBucket
  rw [getOrCreateBucket_found cfg now h]

theorem getStatus_map_findBucket (cfg : ResolvedConfig) (m : BucketMap)
    (key : String) (now : ℚ) :
    findBucket (getStatus cfg m key now).2 key =
      some (accessedBucket cfg m key now) := by
  rw [getStatus_eq]
  exact findBucket_setBucket_self _ _ _

/-- C6 counterexample: `maxTokens = 2, refillRate = 1,
refillInterval = 1000`; after one consume at time 0, a `getStatus` at time 0
reports 1 token but a second `getStatus` at time 1000 — with no intervening
`tryConsume` — reports 2, because `getStatus` runs the refill. -/
theorem C6_counterexample :
    (getStatus (resolveConfig
        { maxTokens := 2, refillRate := 1, refillInterval := 1000 })
      (tryConsume (resolveConfig
        { maxTokens := 2, refillRate := 1, refillInterval := 1000 })
        [] "k" 0).2 "k" 0).1.tokensRemaining = 1 ∧
    (getStatus (resolveConfig
        { maxTokens := 2, refillRate := 1, refillInterval := 1000 })
      (getStatus (resolveConfig
        { maxTokens := 2, refillRate := 1, refillInterval := 1000 })
        (tryConsume (resolveConfig
          { maxTokens := 2, refillRate := 1, refillInterval := 1000 })
          [] "k" 0).2 "k" 0).2 "k" 1000).1.tokensRemaining = 2 := by
  constructor <;>
    norm_num [getStatus, tryConsume, getOrCreateBucket, findBucket, setBucket,
      eraseBucket, refillBucket, accessedBucket, resolveConfig, jsMod, jsTrunc]

/-- C6 (amended): `getStatus` never decrements a bucket's stored token
count, and across repeated `getStatus` calls with no intervening
`tryConsume` the reported `tokensRemaining` is non-decreasing — it can grow
when a refill interval elapses — and is unchanged when the second call
carries the same clock reading. -/
theorem C6_getStatus_monotone (cfg : ResolvedConfig) (m : BucketMap)
    (key : String) (t1 t2 : ℚ) (hr : 0 ≤ cfg.refillRate)
    (hb : ∀ b, findBucket m key = some b → b.tokens ≤ cfg.maxTokens) :
    (∀ b b2, findBucket m key = some b →
      findBucket (getStatus cfg m key t1).2 key = some b2 →
        b.tokens ≤ b2.tokens) ∧
    (getStatus cfg m key t1).1.tokensRemaining ≤
      (getStatus cfg (getStatus cfg m key t1).2 key t2).1.tokensRemaining ∧
    (getStatus cfg (getStatus cfg m key t1).2 key t1).1.tokensRemaining =
      (getStatus cfg m key t1).1.tokensRemaining := by
  have hab_le := accessedBucket_tokens_le_max cfg m key t1 hb
  have hm2 := getStatus_map_findBucket cfg m key t1
  have hfirst : (getStatus cfg m key t1).1.tokensRemaining =
      (accessedBucket cfg m key t1).tokens := by
    rw [getStatus_eq]
  refine ⟨?_, ?_, ?_⟩
  · intro b b2 hfb hfb2
    rw [hm2] at hfb2
    cases hfb2
    show b.tokens ≤ (accessedBucket cfg m key t1).tokens
    unfold accessedBucket
    rw [getOrCreateBucket_found cfg t1 hfb]
    exact refillBucket_tokens_mono cfg _ t1 hr (hb b hfb)
  · rw [hfirst, getStatus_tokens_of_found cfg t2 hm2]
    exact refillBucket_tokens_mono cfg _ t2 hr hab_le
  · rw [hfirst, getStatus_tokens_of_found cfg t1 hm2,
      withLastAccessed_self _ t1 (accessedBucket_lastAccessed cfg m key t1)]
    show (refillBucket cfg (refillBucket cfg _ t1) t1).tokens = _
    rw [refillBucket_idem]
    rfl

/-- C6 (amended) witness: in the counterexample scenario the reported values
1 (at time 0) and 2 (at time 1000) are indeed non-decreasing, and repeating
the first `getStatus` at the same time 0 still reports 1. -/
theorem C6_getStatus_monotone_witness :
    (getStatus (resolveConfig
        { maxTokens := 2, refillRate := 1, refillInterval := 1000 })
      (tryConsume (resolveConfig
        { maxTokens := 2, refillRate := 1, refillInterval := 1000 })
        [] "k" 0).2 "k" 0).1.tokensRemaining ≤
      (getStatus (resolveConfig
        { maxTokens := 2, refillRate := 1, refillInterval := 1000 })
        (getStatus (resolveConfig
          { maxTokens := 2, refillRate := 1, refillInterval := 1000 })
          (tryConsume (resolveConfig
            { maxTokens := 2, refillRate := 1, refillInterval := 1000 })
            [] "k" 0).2 "k" 0).2 "k" 1000).1.tokensRemaining :=
  (C6_getStatus_monotone (resolveConfig
      { maxTokens := 2, refillRate := 1, refillInterval := 1000 })
    (tryConsume (resolveConfig
      { maxTokens := 2, refillRate := 1, refillInterval := 1000 })
      [] "k" 0).2 "k" 0 1000 (by norm_num [resolveConfig])
    (by
      intro b hfb
      norm_num [tryConsume, getOrCreateBucket, findBucket, setBucket,
        eraseBucket, refillBucket, accessedBucket, resolveConfig, jsMod,
        jsTrunc] at hfb
      rw [← hfb]
      norm_num [resolveConfig])).2.1

/-! ## Claim C7 -/

/-- C7: construction fails (with the first matching error) exactly when
`maxTokens ≤ 0`, `refillRate < 0`, `refillInterval ≤ 0`, a provided
`cleanupInterval ≤ 0`, or a provided `bucketTTL ≤ 0`; any configuration
meeting all bounds validates successfully; and `maxTokens = 0`,
`refillInterval = 0` and `refillRate = -1` are rejected with three distinct
specific messages. -/
theorem C7_validateConfig (c : RateLimitConfig) :
    ((∃ e, validateConfig c = Except.error e) ↔
      (c.maxTokens ≤ 0 ∨ c.refillRate < 0 ∨ c.refillInterval ≤ 0 ∨
        (∃ x, c.cleanupInterval = some x ∧ x ≤ 0) ∨
        (∃ x, c.bucketTTL = some x ∧ x ≤ 0))) ∧
    ((0 < c.maxTokens ∧ 0 ≤ c.refillRate ∧ 0 < c.refillInterval ∧
        (∀ x, c.cleanupInterval = some x → 0 < x) ∧
        (∀ x, c.bucketTTL = some x → 0 < x)) →
      validateConfig c = Except.ok ()) ∧
    validateConfig { maxTokens := 0, refillRate := 1, refillInterval := 1000 } =
      Except.error "maxTokens must be greater than 0" ∧
    validateConfig { maxTokens := 10, refillRate := 1, refillInterval := 0 } =
      Except.error "refillInterval must be greater than 0" ∧
    validateConfig { maxTokens := 10, refillRate := -1, refillInterval := 1000 } =
      Except.error "refillRate must be non-negative" ∧
    ("maxTokens must be greater than 0" ≠ "refillInterval must be greater than 0" ∧
      "maxTokens must be greater than 0" ≠ "refillRate must be non-negative" ∧
      "refillInterval must be greater than 0" ≠ "refillRate must be non-negative") := by
  refine ⟨?_, fun h => (validateConfig_ok_iff c).mpr h, ?_, ?_, ?_, ?_⟩
  · rw [validateConfig_error_iff, validateConfig_ok_iff]
    simp only [not_and_or]
    push_neg
    rfl
  · norm_num [validateConfig]
  · norm_num [validateConfig]
  · norm_num [validateConfig]
  · refine ⟨by decide, by decide, by decide⟩

/-- C7 witness: the in-bounds configuration `maxTokens = 100,
refillRate = 100, refillInterval = 60000` validates successfully, via the
theorem's success direction. -/
theorem C7_validateConfig_witness :
    validateConfig
      { maxTokens := 100, refillRate := 100, refillInterval := 60000 } =
      Except.ok () :=
  (C7_validateConfig
      { maxTokens := 100, refillRate := 100, refillInterval := 60000 }).2.1
    ⟨by norm_num, by norm_num, by norm_num, by simp, by simp⟩

/-! ## Claim C8 -/

/-- C8: under a valid configuration every runtime operation is a total
function over any key; an unseen key — including one just removed by
`reset` — is lazily recreated full, so `tryConsume` on it succeeds with
`tokensRemaining = maxTokens - 1` and `getStatus` on it reports `maxTokens`;
`reset` always leaves the key absent, `resetAll` and `destroy` empty the
store, and `cleanup` never grows it. -/
theorem C8_total_unseen (rc : RateLimitConfig) (m : BucketMap) (key : String)
    (now : ℚ) (hv : validateConfig rc = Except.ok ())
    (hnew : findBucket m key = none) :
    (tryConsume (resolveConfig rc) m key now).1.allowed = true ∧
    (tryConsume (resolveConfig rc) m key now).1.tokensRemaining =
      rc.maxTokens - 1 ∧
    (getStatus (resolveConfig rc) m key now).1.tokensRemaining = rc.maxTokens ∧
    (∀ m2 : BucketMap, findBucket (reset m2 key) key = none) ∧
    getBucketCount (resetAll m) = 0 ∧
    getBucketCount (destroy m) = 0 ∧
    (∀ now2, getBucketCount (cleanup (resolveConfig rc) m now2) ≤
      getBucketCount m) := by
  obtain ⟨hmax, -, -, -, -⟩ := (validateConfig_ok_iff rc).mp hv
  have hab : accessedBucket (resolveConfig rc) m key now =
      { tokens := rc.maxTokens, lastRefill := now, lastAccessed := now } := by
    unfold accessedBucket
    rw [getOrCreateBucket_missing _ now hnew]
    exact refillBucket_fresh _ _ _ now
  have hp : 0 < (accessedBucket (resolveConfig rc) m key now).tokens := by
    rw [hab]
    exact hmax
  refine ⟨?_, ?_, ?_, ?_, rfl, rfl, ?_⟩
  · rw [tryConsume_pos _ _ _ _ hp]
  · rw [tryConsume_pos _ _ _ _ hp]
    show (accessedBucket (resolveConfig rc) m key now).tokens - 1 = _
    rw [hab]
  · rw [getStatus_eq]
    show (accessedBucket (resolveConfig rc) m key now).tokens = _
    rw [hab]
  · exact fun m2 => findBucket_eraseBucket_self m2 key
  · exact fun now2 => List.length_filter_le _ m

/-- C8 witness: with `maxTokens = 2, refillRate = 1,
refillInterval = 1000`, a first consume on the empty store succeeds with one
token remaining. -/
theorem C8_total_unseen_witness :
    (tryConsume (resolveConfig
        { maxTokens := 2, refillRate := 1, refillInterval := 1000 })
      [] "k" 0).1.allowed = true ∧
    (tryConsume (resolveConfig
        { maxTokens := 2, refillRate := 1, refillInterval := 1000 })
      [] "k" 0).1.tokensRemaining = 2 - 1 :=
  ⟨(C8_total_unseen { maxTokens := 2, refillRate := 1, refillInterval := 1000 }
      [] "k" 0 (by norm_num [validateConfig]) rfl).1,
    (C8_total_unseen { maxTokens := 2, refillRate := 1, refillInterval := 1000 }
      [] "k" 0 (by norm_num [validateConfig]) rfl).2.1⟩

/-! ## Claim C9 -/

/-- C9: both client request paths (`makeRequest` and `healthCheck`) consult
`tryConsume` on the fixed key first — the limiter state they leave behind is
exactly the post-`tryConsume` state, whatever the HTTP layer would do — and
whenever that `tryConsume` denies, `makeRequest` fails immediately with the
429 rate-limit `FF14APIClientError` and `healthCheck` reports
`status: 'error'`, in both cases without the outbound HTTP request being
attempted. -/
theorem C9_rate_limit_gate {α : Type} (cfg : ResolvedConfig) (m : BucketMap)
    (now : ℚ) (endpoint : String) (fallback : Option α)
    (responseValid : α → Bool) (http : HttpOutcome α)
    (httpH : HttpOutcome String)
    (hden : (tryConsume cfg m rateLimitKey now).1.allowed = false) :
    (makeRequest cfg m now endpoint fallback responseValid http).result =
      Except.error ⟨"Rate limit exceeded. Please try again later.",
        some 429, some endpoint⟩ ∧
    (makeRequest cfg m now endpoint fallback responseValid http).httpAttempted =
      false ∧
    (healthCheck cfg m now httpH).statusOk = false ∧
    (healthCheck cfg m now httpH).httpAttempted = false ∧
    (∀ http2 : HttpOutcome α,
      (makeRequest cfg m now endpoint fallback responseValid http2).limiter =
        (tryConsume cfg m rateLimitKey now).2) ∧
    (∀ httpH2 : HttpOutcome String,
      (healthCheck cfg m now httpH2).limiter =
        (tryConsume cfg m rateLimitKey now).2) := by
  refine ⟨?_, ?_, ?_, ?_, ?_, ?_⟩
  · unfold makeRequest
    simp only []
    rw [hden]
    rfl
  · unfold makeRequest
    simp only []
    rw [hden]
    rfl
  · unfold healthCheck
    simp only []
    rw [hden]
    rfl
  · unfold healthCheck
    simp only []
    rw [hden]
    rfl
  · intro http2
    unfold makeRequest
    simp only []
    split
    · split <;> first | rfl | (split <;> rfl)
    · rfl
  · intro httpH2
    unfold healthCheck
    simp only []
    split
    · split <;> rfl
    · rfl

/-- C9 witness: with a one-shot limiter (`maxTokens = 1, refillRate = 0`)
whose single token was consumed at time 0, a request at time 5 is denied:
`makeRequest` does not attempt HTTP and `healthCheck` reports an error. -/
theorem C9_rate_limit_gate_witness :
    (makeRequest (resolveConfig
        { maxTokens := 1, refillRate := 0, refillInterval := 1000 })
      (tryConsume (resolveConfig
        { maxTokens := 1, refillRate := 0, refillInterval := 1000 })
        [] rateLimitKey 0).2 5 "jobs" (none : Option ℕ) (fun _ => true)
      (HttpOutcome.networkFailure "x")).httpAttempted = false ∧
    (healthCheck (resolveConfig
        { maxTokens := 1, refillRate := 0, refillInterval := 1000 })
      (tryConsume (resolveConfig
        { maxTokens := 1, refillRate := 0, refillInterval := 1000 })
        [] rateLimitKey 0).2 5 (HttpOutcome.networkFailure "x")).statusOk =
      false :=
  ⟨(C9_rate_limit_gate (resolveConfig
        { maxTokens := 1, refillRate := 0, refillInterval := 1000 })
      (tryConsume (resolveConfig
        { maxTokens := 1, refillRate := 0, refillInterval := 1000 })
        [] rateLimitKey 0).2 5 "jobs" (none : Option ℕ) (fun _ => true)
      (HttpOutcome.networkFailure "x") (HttpOutcome.networkFailure "x")
      (by norm_num [tryConsume, getOrCreateBucket, findBucket, setBucket,
        eraseBucket, refillBucket, accessedBucket, resolveConfig, jsMod,
        jsTrunc, rateLimitKey])).2.1,
    (C9_rate_limit_gate (resolveConfig
        { maxTokens := 1, refillRate := 0, refillInterval := 1000 })
      (tryConsume (resolveConfig
        { maxTokens := 1, refillRate := 0, refillInterval := 1000 })
        [] rateLimitKey 0).2 5 "jobs" (none : Option ℕ) (fun _ => true)
      (HttpOutcome.networkFailure "x") (HttpOutcome.networkFailure "x")
      (by norm_num [tryConsume, getOrCreateBucket, findBucket, setBucket,
        eraseBucket, refillBucket, accessedBucket, resolveConfig, jsMod,
        jsTrunc, rateLimitKey])).2.2.1⟩

/-! ## Claim C10 -/

/-- C10: when `tryConsume` denies, the stored bucket is exactly the
refill of the old bucket with only `lastAccessed` restamped — the token
count is not decremented — and the denied result reports
`tokensRemaining = 0` with a present `retryAfter`, a field every allowed
result omits. -/
theorem C10_denied_frame (cfg : ResolvedConfig) (m : BucketMap) (key : String)
    (now : ℚ) (b : TokenBucket) (hm : findBucket m key = some b)
    (hden : (tryConsume cfg m key now).1.allowed = false) :
    findBucket (tryConsume cfg m key now).2 key =
      some (refillBucket cfg { b with lastAccessed := now } now) ∧
    (tryConsume cfg m key now).1.tokensRemaining = 0 ∧
    (tryConsume cfg m key now).1.retryAfter.isSome = true ∧
    (∀ (m2 : BucketMap) (key2 : String) (now2 : ℚ),
      (tryConsume cfg m2 key2 now2).1.allowed = true →
      (tryConsume cfg m2 key2 now2).1.retryAfter = none) := by
  have hab : accessedBucket cfg m key now =
      refillBucket cfg { b with lastAccessed := now } now := by
    unfold accessedBucket
    rw [getOrCreateBucket_found cfg now hm]
  have hp : ¬ 0 < (accessedBucket cfg m key now).tokens := by
    intro hpos
    rw [tryConsume_pos cfg m key now hpos] at hden
    simp at hden
  refine ⟨?_, ?_, ?_, ?_⟩
  · rw [tryConsume_nonpos cfg m key now hp, ← hab]
    show findBucket (setBucket _ key _) key = _
    rw [findBucket_setBucket_self]
  · rw [tryConsume_nonpos cfg m key now hp]
  · rw [tryConsume_nonpos cfg m key now hp]
    rfl
  · intro m2 key2 now2 hallowed
    by_cases hp2 : 0 < (accessedBucket cfg m2 key2 now2).tokens
    · rw [tryConsume_pos cfg m2 key2 now2 hp2]
    · rw [tryConsume_nonpos cfg m2 key2 now2 hp2] at hallowed
      simp at hallowed

/-- C10 witness: the one-shot limiter whose token was consumed at time 0
denies the next call at time 5, reporting zero remaining with `retryAfter`
present; while the first, allowed call carried no `retryAfter`. -/
theorem C10_denied_frame_witness :
    (tryConsume (resolveConfig
        { maxTokens := 1, refillRate := 0, refillInterval := 1000 })
      (tryConsume (resolveConfig
        { maxTokens := 1, refillRate := 0, refillInterval := 1000 })
        [] "k" 0).2 "k" 5).1.tokensRemaining = 0 ∧
    (tryConsume (resolveConfig
        { maxTokens := 1, refillRate := 0, refillInterval := 1000 })
      (tryConsume (resolveConfig
        { maxTokens := 1, refillRate := 0, refillInterval := 1000 })
        [] "k" 0).2 "k" 5).1.retryAfter.isSome = true :=
  ⟨(C10_denied_frame (resolveConfig
        { maxTokens := 1, refillRate := 0, refillInterval := 1000 })
      (tryConsume (resolveConfig
        { maxTokens := 1, refillRate := 0, refillInterval := 1000 })
        [] "k" 0).2 "k" 5 { tokens := 0, lastRefill := 0, lastAccessed := 0 }
      (by norm_num [tryConsume, getOrCreateBucket, findBucket, setBucket,
        eraseBucket, refillBucket, accessedBucket, resolveConfig, jsMod,
        jsTrunc])
      (by norm_num [tryConsume, getOrCreateBucket, findBucket, setBucket,
        eraseBucket, refillBucket, accessedBucket, resolveConfig, jsMod,
        jsTrunc])).2.1,
    (C10_denied_frame (resolveConfig
        { maxTokens := 1, refillRate := 0, refillInterval := 1000 })
      (tryConsume (resolveConfig
        { maxTokens := 1, refillRate := 0, refillInterval := 1000 })
        [] "k" 0).2 "k" 5 { tokens := 0, lastRefill := 0, lastAccessed := 0 }
      (by norm_num [tryConsume, getOrCreateBucket, findBucket, setBucket,
        eraseBucket, refillBucket, accessedBucket, resolveConfig, jsMod,
        jsTrunc])
      (by norm_num [tryConsume, getOrCreateBucket, findBucket, setBucket,
        eraseBucket, refillBucket, accessedBucket, resolveConfig, jsMod,
        jsTrunc])).2.2.1⟩

end RateLimiterSpec
